import Mathlib

/-!
Verification of the rocket game's core flight / state-machine code.

The JavaScript source is shallowly embedded over exact rationals (`ℚ`).
JavaScript numbers that can become non-finite (`NaN` / `Infinity`) are
modelled as `Option ℚ`, with `none` standing for any non-finite value;
IEEE arithmetic on `NaN` is absorbing, which `Option.map`-style operations
reproduce.  Square roots (from `THREE.Vector3.length` / `distanceTo`) are
irrational in general, so every definition that needs one takes an explicit
function `sq : ℚ → ℚ` standing for `Math.sqrt`; theorems constrain `sq`
only at the points where the code evaluates it, and witnesses instantiate
`sq` on perfect squares.
-/

/-- A 3-component vector with exact rational coordinates
(embedding of `THREE.Vector3` on the finite path). -/
structure Vec3 where
  x : ℚ
  y : ℚ
  z : ℚ
deriving DecidableEq, Repr

def vzero : Vec3 := ⟨0, 0, 0⟩

def vadd (a b : Vec3) : Vec3 := ⟨a.x + b.x, a.y + b.y, a.z + b.z⟩

def vsub (a b : Vec3) : Vec3 := ⟨a.x - b.x, a.y - b.y, a.z - b.z⟩

def vscale (k : ℚ) (v : Vec3) : Vec3 := ⟨k * v.x, k * v.y, k * v.z⟩

/-- Squared euclidean norm: `THREE.Vector3.lengthSq`. -/
def normSq (v : Vec3) : ℚ := v.x * v.x + v.y * v.y + v.z * v.z

/-- A JavaScript number: `some q` is the finite value `q`, `none` is any
non-finite value (`NaN` or `±Infinity`). -/
abbrev JNum := Option ℚ

/-- JavaScript addition on possibly-non-finite numbers: `NaN` absorbs. -/
def jsAdd (a b : JNum) : JNum :=
  match a, b with
  | some p, some q => some (p + q)
  | _, _ => none

/-- JavaScript multiplication of a finite scalar by a possibly-`NaN`
scalar.  `0 * NaN = NaN` in IEEE arithmetic, which `Option.map` gives. -/
def jsMulSc (k : JNum) (q : ℚ) : JNum := k.map (fun t => q * t)

/-- A vector whose components may be non-finite. -/
structure JVec3 where
  x : JNum
  y : JNum
  z : JNum
deriving DecidableEq, Repr

/-- Inclusion of finite vectors into possibly-non-finite ones. -/
def toJ (v : Vec3) : JVec3 := ⟨some v.x, some v.y, some v.z⟩

def jvAdd (a b : JVec3) : JVec3 := ⟨jsAdd a.x b.x, jsAdd a.y b.y, jsAdd a.z b.z⟩

def jvScale (k : ℚ) (v : JVec3) : JVec3 :=
  ⟨v.x.map (fun t => k * t), v.y.map (fun t => k * t), v.z.map (fun t => k * t)⟩

def jZero : JVec3 := toJ vzero

/-- `Physics.calculateGravityForce` returns a *scalar* on the main path but
a *`THREE.Vector3`* on the `distance === 0` guard; this sum type records
that type confusion exactly as the source has it. -/
inductive GravResult where
  | scalar (q : ℚ)
  | vec (v : Vec3)
deriving DecidableEq, Repr

/-- `this.G = 0.1` from the `Physics` constructor. -/
def physicsG : ℚ := 1 / 10

/-- `Physics.calculateGravityForce(mass1, mass2, distance)`:
`if (distance === 0) return new THREE.Vector3(0, 0, 0);`
`return (this.G * mass1 * mass2) / (distance * distance);`. -/
def calculateGravityForce (mass1 mass2 distance : ℚ) : GravResult :=
  if distance = 0 then .vec vzero
  else .scalar (physicsG * mass1 * mass2 / (distance * distance))

/-- `THREE.Vector3.normalize` is `divideScalar(this.length() || 1)`;
`sq` plays `Math.sqrt`, so `length = sq (lengthSq)`. -/
def jsNormalize (sq : ℚ → ℚ) (v : Vec3) : Vec3 :=
  vscale (1 / (if sq (normSq v) = 0 then 1 else sq (normSq v))) v

/-- `Physics.applyGravity(object, planet)`.  The returned JS expression is
`direction.multiplyScalar(force / object.mass)`: when `force` is the
`Vector3` from the zero-distance guard, `force / object.mass` coerces the
object to `NaN`; when `object.mass` is `0` the quotient is non-finite.
Both cases are `none`. -/
def applyGravity (sq : ℚ → ℚ) (objPos : Vec3) (objMass : ℚ)
    (planetPos : Vec3) (planetMass : ℚ) : JVec3 :=
  let direction := jsNormalize sq (vsub planetPos objPos)
  let distance := sq (normSq (vsub objPos planetPos))
  let force := calculateGravityForce objMass planetMass distance
  let k : JNum :=
    match force with
    | .scalar f => if objMass = 0 then none else some (f / objMass)
    | .vec _ => none
  ⟨jsMulSc k direction.x, jsMulSc k direction.y, jsMulSc k direction.z⟩

/-- Written from the spec's words (§4.1): the scalar contract
`force(m1, m2, distance) = G * m1 * m2 / distance²`. -/
def specForce (m1 m2 distance : ℚ) : ℚ := physicsG * m1 * m2 / (distance ^ 2)

/-- Written from the spec's words (§4.1): `acceleration(craft, body)` is
the unit vector from craft to body scaled by `force / craft.mass`. -/
def specAcceleration (craftPos : Vec3) (craftMass : ℚ)
    (bodyPos : Vec3) (bodyMass : ℚ) (distance : ℚ) : Vec3 :=
  vscale (specForce craftMass bodyMass distance / craftMass)
    (vscale (1 / distance) (vsub bodyPos craftPos))

lemma normSq_vsub_comm (a b : Vec3) : normSq (vsub a b) = normSq (vsub b a) := by
  simp only [normSq, vsub]
  ring

/-- An attracting body as `Game.update` sees it: a position and a mass. -/
structure Body where
  pos : Vec3
  mass : ℚ
deriving DecidableEq, Repr

/-- `Game.update`'s gravity accumulation (solar-system scene with a planet
list): `let totalGravity = this.physics.applyGravity(this.rocket, this.earth);`
then `this.planets.forEach(planet => { totalGravity.add(gravity); })`. -/
def totalGravity (sq : ℚ → ℚ) (rocketPos : Vec3) (rocketMass : ℚ)
    (earth : Body) (planets : List Body) : JVec3 :=
  planets.foldl
    (fun acc p => jvAdd acc (applyGravity sq rocketPos rocketMass p.pos p.mass))
    (applyGravity sq rocketPos rocketMass earth.pos earth.mass)

/-- Sum of a list of (possibly non-finite) acceleration vectors. -/
def jvSum (l : List JVec3) : JVec3 := l.foldr jvAdd jZero

/-- `this.viewMode`, `'2d'` or `'3d'`. -/
inductive ViewMode where
  | twoD
  | threeD
deriving DecidableEq, Repr

/-- `Game.updateViewMode` (hysteresis version).  `closestAltitude` starts
at the Earth altitude; the planet loop only runs when the rocket is not
already near Earth (`if (this.planets && !nearAnyPlanet)`), so when
`earthAltitude < 300` the computed closest altitude is just the Earth
altitude.  Thresholds: switch in at `300`, back out at `300 * 1.5 = 450`. -/
def updateViewMode (mode : ViewMode) (earthAlt : ℚ) (planetAlts : List ℚ) :
    ViewMode :=
  let closestAltitude :=
    if earthAlt < 300 then earthAlt else planetAlts.foldl min earthAlt
  if mode = ViewMode.twoD ∧ closestAltitude < 300 then ViewMode.threeD
  else if mode = ViewMode.threeD ∧ closestAltitude > 450 then ViewMode.twoD
  else mode

/-- Minimum altitude over the home body and the planet list (the "closest
body's altitude" of the claim). -/
def closestAlt (earthAlt : ℚ) (planetAlts : List ℚ) : ℚ :=
  planetAlts.foldl min earthAlt

/-- Iterate `updateViewMode` over a trace of per-tick altitude readings
(Earth altitude paired with the other planets' altitudes). -/
def runViewMode (mode : ViewMode) (trace : List (ℚ × List ℚ)) : ViewMode :=
  trace.foldl (fun m t => updateViewMode m t.1 t.2) mode

/-- Single-planet sub-scene state, `PlanetScene.gameState`. -/
inductive SubState where
  | approaching
  | landing
  | landed
  | launching
deriving DecidableEq, Repr

/-- `PlanetScene.updateGameState` (the enlarged-planet version in
`src/scenes/PlanetScene.js`, thresholds 800 / speed 1 & alt 40 / speed 5 /
alt 800), an if-else chain over the current state. -/
def updateGameState (s : SubState) (altitude speed : ℚ) : SubState :=
  if s = SubState.approaching ∧ altitude < 800 then SubState.landing
  else if s = SubState.landing ∧ speed < 1 ∧ altitude < 40 then SubState.landed
  else if s = SubState.landed ∧ speed > 5 then SubState.launching
  else if s = SubState.launching ∧ altitude > 800 then SubState.approaching
  else s

/-- Written from the claim's words: exactly the four cyclic guarded
transitions, everything else left unchanged. -/
def specSubSceneStep (s : SubState) (altitude speed : ℚ) : SubState :=
  match s with
  | SubState.approaching =>
      if altitude < 800 then SubState.landing else SubState.approaching
  | SubState.landing =>
      if speed < 1 ∧ altitude < 40 then SubState.landed else SubState.landing
  | SubState.landed =>
      if speed > 5 then SubState.launching else SubState.landed
  | SubState.launching =>
      if altitude > 800 then SubState.approaching else SubState.launching

/-- Successor along the cycle `approaching → landing → landed → launching →
approaching`. -/
def cyclicNext (s : SubState) : SubState :=
  match s with
  | SubState.approaching => SubState.landing
  | SubState.landing => SubState.landed
  | SubState.landed => SubState.launching
  | SubState.launching => SubState.approaching

/-- Outcome of one landing classification, the string result of
`Planet.checkLanding` (`null` / `'success'` / `'crash'`). -/
inductive LandingOutcome where
  | noEvent
  | success
  | crash
deriving DecidableEq, Repr

/-- Modelled from the spec: `Planet.checkLanding` — the `Planet` class is
not under `src/`, only its callers are.  Spec §4.2: classification
"triggers only when altitude crosses below a per-body contact threshold;
success requires combined speed below a safe limit; crash is speed above
that limit at contact", with an already-resolved flag per contact episode
"cleared once altitude rises above the threshold again".  Arguments:
contact threshold, safe-speed limit, the resolved flag, current altitude
and speed; returns the new flag and the outcome. -/
def checkLanding (contact safeSpeed : ℚ) (resolved : Bool)
    (altitude speed : ℚ) : Bool × LandingOutcome :=
  if altitude < contact then
    if resolved then (true, LandingOutcome.noEvent)
    else if speed ≤ safeSpeed then (true, LandingOutcome.success)
    else (true, LandingOutcome.crash)
  else (false, LandingOutcome.noEvent)

/-- Repeated per-tick evaluation of `checkLanding` over a list of
(altitude, speed) readings, threading the resolved flag. -/
def runCheckLanding (contact safeSpeed : ℚ) (resolved : Bool) :
    List (ℚ × ℚ) → List LandingOutcome
  | [] => []
  | t :: ts =>
      let r := checkLanding contact safeSpeed resolved t.1 t.2
      r.2 :: runCheckLanding contact safeSpeed r.1 ts

/-- Number of fired (non-`noEvent`) outcomes. -/
def countEvents (l : List LandingOutcome) : ℕ :=
  l.countP (fun o => o ≠ LandingOutcome.noEvent)

/-- Top-level phase, `Game.gameState`. -/
inductive Phase where
  | launch
  | space
  | landing
  | gameOver
deriving DecidableEq, Repr

/-- The game-over reason shown by `Game.onGameOver` (the message string). -/
inductive GOMsg where
  | crashed
  | outOfFuel
  | collision
deriving DecidableEq, Repr

/-- `Infinity`-seeded minimum of `checkGameState`'s planet-altitude scan
(`closestPlanetAltitude = Infinity; forEach(... min ...)`): `none` when the
planet list is empty. -/
def minAltQ : List ℚ → Option ℚ
  | [] => none
  | a :: as => some (as.foldl min a)

/-- `Game.checkGameState` (the all-planets version).  Inputs that the
method reads from the scene — the altitudes, the per-body results of
`planet.checkLanding(rocket)`, fuel and speed — are passed as arguments;
the method's writes (phase, view mode, game-over message) are the result.
`onLandingSuccess` changes no phase immediately (it only schedules the
deferred respawn, modelled separately); `onGameOver` sets phase `gameOver`
and the message.  The out-of-fuel test is the method's last statement. -/
def checkGameState (phase : Phase) (mode : ViewMode)
    (earthAlt : ℚ) (planetAlts : List ℚ)
    (earthLanding : LandingOutcome) (planetLandings : List LandingOutcome)
    (fuel speed : ℚ) : Phase × ViewMode × Option GOMsg :=
  let p1 := if phase = Phase.launch ∧ earthAlt > 200 then Phase.space else phase
  let p2 :=
    match minAltQ planetAlts with
    | none => p1
    | some m => if p1 = Phase.space ∧ m < 200 then Phase.landing else p1
  let mode' := updateViewMode mode earthAlt planetAlts
  let step := fun (pm : Phase × Option GOMsg) (o : LandingOutcome) =>
    match o with
    | LandingOutcome.crash => (Phase.gameOver, some GOMsg.crashed)
    | _ => pm
  let pm := planetLandings.foldl step (step (p2, none) earthLanding)
  if fuel ≤ 0 ∧ speed < 1 / 10 ∧ earthAlt > 10 then
    (Phase.gameOver, mode', some GOMsg.outOfFuel)
  else (pm.1, mode', pm.2)

/-- State touched by the deferred-respawn flow of the solar-system scene:
the phase, whether a respawn timer is pending, and how many times the
rocket has been reset/repositioned. -/
structure RespawnState where
  phase : Phase
  timerArmed : Bool
  resets : ℕ
deriving DecidableEq, Repr

/-- `Game.onLandingSuccess(planet)`: when the planet is not yet visited it
bumps the score and schedules `setTimeout(..., 3000)`; the timer callback
body is modelled by `respawnTimerFire`. -/
def onLandingSuccess (alreadyVisited : Bool) (g : RespawnState) : RespawnState :=
  if alreadyVisited then g else { g with timerArmed := true }

/-- `Game.onGameOver`: sets `gameState = 'gameOver'`. -/
def onGameOver (g : RespawnState) : RespawnState :=
  { g with phase := Phase.gameOver }

/-- The body of the `setTimeout` callback in `Game.onLandingSuccess`
(lines 1292–1296): `this.rocket.reset(); this.positionRocketOnEurope();
this.gameState = 'launch';` — run unconditionally, with no check of the
current phase and no cancellation. -/
def respawnTimerFire (g : RespawnState) : RespawnState :=
  { g with phase := Phase.launch, timerArmed := false, resets := g.resets + 1 }

/-- Events of the deferred-respawn flow, in wall-clock order. -/
inductive RespawnEv where
  | landingSuccess (alreadyVisited : Bool)
  | gameOverEv
  | timerFire
deriving DecidableEq, Repr

def runRespawn (g : RespawnState) : List RespawnEv → RespawnState
  | [] => g
  | RespawnEv.landingSuccess v :: es => runRespawn (onLandingSuccess v g) es
  | RespawnEv.gameOverEv :: es => runRespawn (onGameOver g) es
  | RespawnEv.timerFire :: es => runRespawn (respawnTimerFire g) es

/-- Modelled from the spec: `Planet.getAltitude` — the `Planet` class is
not under `src/`.  Spec §4.2/§8: `altitude(point) = |point − body.position|
− body.radius`; `sq` plays `Math.sqrt` in the length. -/
def getAltitude (sq : ℚ → ℚ) (center : Vec3) (radius : ℚ) (p : Vec3) : ℚ :=
  sq (normSq (vsub p center)) - radius

/-- Rocket orientation after a scene transfer: set by
`Planet.orientRocketOnSurface` (modelled from the spec's
surface-orientation helper, §4.2) or by `mesh.lookAt(planet.position)`. -/
inductive Orient where
  | unset
  | surfaceUp
  | towardPlanet
deriving DecidableEq, Repr

/-- The rocket fields that `transferRocketFromSolarSystem` writes. -/
structure TransferredRocket where
  fuel : ℚ
  vel : Vec3
  pos : Vec3
  gearDeployed : Bool
  orient : Orient
deriving DecidableEq, Repr

/-- Whether the destination planet is the home body:
`this.planet.name === 'Earth'`. -/
inductive PlanetId where
  | earth
  | other
deriving DecidableEq, Repr

/-- `PlanetScene.transferRocketFromSolarSystem` (the version with the
home-body branch).  The source fixes `landingAngle = rocketAngle =
Math.PI * 0.25`; its cosine/sine are irrational, so the angle is embedded
as a point `(c, s)` on the unit circle (theorems assume `c² + s² = 1`).
Earth branch: surface pose at center distance `radius + 2`, `y = 0`,
velocity zeroed, oriented upright, gear deployed, state `landed`.
Other branch: approach pose at horizontal center distance `radius + 800`,
`y = 200`, velocity zeroed, `lookAt(planet)`, state `approaching` (gear
untouched). -/
def transferRocketFromSolarSystem (planet : PlanetId) (radius : ℚ)
    (c s : ℚ) (srcFuel : ℚ) (_srcVel : Vec3) (gear0 : Bool) :
    TransferredRocket × SubState :=
  match planet with
  | PlanetId.earth =>
      let d := radius + 2
      (⟨srcFuel, vzero, ⟨c * d, 0, s * d⟩, true, Orient.surfaceUp⟩,
        SubState.landed)
  | PlanetId.other =>
      let d := radius + 800
      (⟨srcFuel, vzero, ⟨c * d, 200, s * d⟩, gear0, Orient.towardPlanet⟩,
        SubState.approaching)

/-- `PlanetScene.calculateAtmosphericDrag`: `maxDrag = 0.15`,
`atmosphereHeight = 2400`, `maxDrag * Math.pow(1 - altitude / 2400, 1.5)`;
`x ^ 1.5 = x * sqrt x` for `x ≥ 0`, with `sq` playing `Math.sqrt`. -/
def calculateAtmosphericDrag (sq : ℚ → ℚ) (altitude : ℚ) : ℚ :=
  if altitude ≥ 2400 then 0
  else (3 / 20) * ((1 - altitude / 2400) * sq (1 - altitude / 2400))

/-- The `gravityMultiplier` of `PlanetScene.applyEnhancedGravity`:
`strongGravityRange = 2 * radius`, `enhancedGravityRange = 6 * radius`;
up to `1 + 2.5 = 3.5` inside the strong range, up to `1.8` in the medium
range, `1` otherwise. -/
def enhancedGravityMultiplier (radius dist : ℚ) : ℚ :=
  if dist < 2 * radius then
    1 + (2 * radius - dist) / (2 * radius) * (5 / 2)
  else if dist < 6 * radius then
    1 + (6 * radius - dist) / (6 * radius - 2 * radius) * (4 / 5)
  else 1

/-- `PlanetScene.applyEnhancedGravity` (enhanced single-planet scene):
returns the zero vector beyond `6 * radius`; otherwise takes the base
`Physics.applyGravity`, adds the atmospheric-drag force
`velocity * (-drag)` when `altitude < 2400`, and scales the sum by
`gravityMultiplier`.  (The unused local `direction` of the source is
omitted.) -/
def applyEnhancedGravity (sq : ℚ → ℚ) (rocketPos : Vec3) (rocketMass : ℚ)
    (rocketVel : Vec3) (planetPos : Vec3) (planetMass radius : ℚ) : JVec3 :=
  let altitude := getAltitude sq planetPos radius rocketPos
  let dist := sq (normSq (vsub rocketPos planetPos))
  if dist > 6 * radius then toJ vzero
  else
    let baseGravity := applyGravity sq rocketPos rocketMass planetPos planetMass
    let mult := enhancedGravityMultiplier radius dist
    let withDrag :=
      if altitude < 2400 then
        jvAdd baseGravity
          (toJ (vscale (-(calculateAtmosphericDrag sq altitude)) rocketVel))
      else baseGravity
    jvScale mult withDrag

/-! Helper lemmas shared by the claim theorems. -/

lemma jsAdd_some_zero (a : JNum) : jsAdd a (some 0) = a := by
  cases a <;> simp [jsAdd]

lemma jsAdd_assoc (a b c : JNum) : jsAdd (jsAdd a b) c = jsAdd a (jsAdd b c) := by
  cases a <;> cases b <;> cases c <;> simp [jsAdd, add_assoc]

lemma jvAdd_jZero (v : JVec3) : jvAdd v jZero = v := by
  cases v
  simp [jvAdd, jZero, toJ, vzero, jsAdd_some_zero]

lemma jvAdd_assoc (a b c : JVec3) : jvAdd (jvAdd a b) c = jvAdd a (jvAdd b c) := by
  cases a; cases b; cases c
  simp [jvAdd, jsAdd_assoc]

lemma foldl_jvAdd_eq_jvSum (l : List JVec3) :
    ∀ a : JVec3, l.foldl jvAdd a = jvAdd a (jvSum l) := by
  induction l with
  | nil => intro a; simp [jvSum, jvAdd_jZero]
  | cons x xs ih =>
      intro a
      simp only [List.foldl_cons, jvSum, List.foldr_cons]
      rw [ih (jvAdd a x), jvAdd_assoc]
      rfl

lemma foldl_min_le_seed : ∀ (l : List ℚ) (a : ℚ), l.foldl min a ≤ a := by
  intro l
  induction l with
  | nil => intro a; simp
  | cons b t ih =>
      intro a
      simpa using le_trans (ih (min a b)) (min_le_left a b)

lemma foldl_min_lt_iff (c : ℚ) :
    ∀ (l : List ℚ) (a : ℚ), l.foldl min a < c ↔ a < c ∨ ∃ x ∈ l, x < c := by
  intro l
  induction l with
  | nil => intro a; simp
  | cons b t ih =>
      intro a
      simp only [List.foldl_cons, ih (min a b), min_lt_iff, List.mem_cons]
      constructor
      · rintro (⟨h | h⟩ | ⟨x, hx, hlt⟩)
        · exact Or.inl h
        · exact Or.inr ⟨b, Or.inl rfl, h⟩
        · exact Or.inr ⟨x, Or.inr hx, hlt⟩
      · rintro (h | ⟨x, hx | hx, hlt⟩)
        · exact Or.inl (Or.inl h)
        · exact Or.inl (Or.inr (hx ▸ hlt))
        · exact Or.inr ⟨x, hx, hlt⟩

lemma lt_foldl_min_iff (c : ℚ) :
    ∀ (l : List ℚ) (a : ℚ), c < l.foldl min a ↔ c < a ∧ ∀ x ∈ l, c < x := by
  intro l
  induction l with
  | nil => intro a; simp
  | cons b t ih =>
      intro a
      simp only [List.foldl_cons, ih (min a b), lt_min_iff, List.mem_cons]
      constructor
      · rintro ⟨⟨ha, hb⟩, ht⟩
        exact ⟨ha, fun x hx => hx.elim (fun h => h ▸ hb) (ht x)⟩
      · rintro ⟨ha, hall⟩
        exact ⟨⟨ha, hall b (Or.inl rfl)⟩, fun x hx => hall x (Or.inr hx)⟩

/-! Claim theorems. -/

/-- Claim C1 (code bug): at zero distance the claim expects `applyGravity`
to return the zero acceleration vector with no `NaN`; `calculateGravityForce`
does return a zero `Vector3`, but `applyGravity` divides that vector by the
craft mass (coercing it to `NaN`) and multiplies the direction by it, so
every component of the returned acceleration is `NaN` (`none`), not zero.
Evaluated at craft and body both at the origin with masses `1`, and the
only square root taken is `sqrt 0 = 0`. -/
theorem applyGravity_zero_distance_is_nan :
    calculateGravityForce 1 1 0 = GravResult.vec vzero ∧
    applyGravity (fun _ => 0) ⟨0, 0, 0⟩ 1 ⟨0, 0, 0⟩ 1 = ⟨none, none, none⟩ ∧
    applyGravity (fun _ => 0) ⟨0, 0, 0⟩ 1 ⟨0, 0, 0⟩ 1 ≠ toJ vzero := by
  refine ⟨by decide, by decide, by decide⟩

/-- Claim C7: for positive distance the force is the scalar
`G * m1 * m2 / d²` and the acceleration applied to the craft is the unit
vector from craft toward body scaled by `force / craft.mass`, exactly the
spec-side contract (`specForce`, `specAcceleration`).  `sq` is constrained
to be the true square root of the squared center distance. -/
theorem applyGravity_matches_spec (sq : ℚ → ℚ) (objPos : Vec3) (objMass : ℚ)
    (planetPos : Vec3) (planetMass : ℚ) (d : ℚ)
    (hd : d = sq (normSq (vsub objPos planetPos)))
    (hpos : 0 < d)
    (_hsq : d * d = normSq (vsub objPos planetPos))
    (hm : objMass ≠ 0) :
    calculateGravityForce objMass planetMass d =
      GravResult.scalar (specForce objMass planetMass d) ∧
    applyGravity sq objPos objMass planetPos planetMass =
      toJ (specAcceleration objPos objMass planetPos planetMass d) := by
  have hd0 : d ≠ 0 := ne_of_gt hpos
  constructor
  · simp [calculateGravityForce, if_neg hd0, specForce, pow_two]
  · have hlen2 : sq (normSq (vsub objPos planetPos)) = d := hd.symm
    have hlen : sq (normSq (vsub planetPos objPos)) = d := by
      rw [normSq_vsub_comm planetPos objPos, hlen2]
    simp only [applyGravity, jsNormalize, hlen, hlen2, if_neg hd0,
      calculateGravityForce, jsMulSc, if_neg hm, Option.map_some']
    simp only [toJ, specAcceleration, specForce, vscale, vsub,
      JVec3.mk.injEq, Option.some.injEq]
    refine ⟨?_, ?_, ?_⟩ <;>
      · field_simp
        ring

/-- Claim C8: superposition — the accumulated `totalGravity` of
`Game.update` equals the vector sum of `applyGravity` computed
independently for each body (Earth first, then every planet), for every
craft state and every list of bodies. -/
theorem totalGravity_is_superposition (sq : ℚ → ℚ) (rocketPos : Vec3)
    (rocketMass : ℚ) (earth : Body) (planets : List Body) :
    totalGravity sq rocketPos rocketMass earth planets =
      jvSum (applyGravity sq rocketPos rocketMass earth.pos earth.mass ::
        planets.map (fun p => applyGravity sq rocketPos rocketMass p.pos p.mass)) := by
  rw [totalGravity, jvSum, List.foldr_cons]
  rw [show (planets.foldl
        (fun acc p => jvAdd acc (applyGravity sq rocketPos rocketMass p.pos p.mass))
        (applyGravity sq rocketPos rocketMass earth.pos earth.mass)) =
      ((planets.map (fun p => applyGravity sq rocketPos rocketMass p.pos p.mass)).foldl
        jvAdd (applyGravity sq rocketPos rocketMass earth.pos earth.mass)) from
    (List.foldl_map _ _ _ _).symm]
  exact foldl_jvAdd_eq_jvSum _ _

/-- Claim C3: view-mode hysteresis.  (a) the mode becomes `threeD` as soon
as the closest body's altitude drops below the proximity threshold 300;
(b) it switches back to `twoD` only when that altitude exceeds 450
(= 1.5 × 300); (c) for any trace of readings staying strictly inside the
band (300, 450) the view mode never changes, hence never toggles more than
once per full crossing of the band. -/
theorem updateViewMode_hysteresis :
    (∀ (m : ViewMode) (e : ℚ) (ps : List ℚ),
        closestAlt e ps < 300 → updateViewMode m e ps = ViewMode.threeD) ∧
    (∀ (e : ℚ) (ps : List ℚ),
        updateViewMode ViewMode.threeD e ps = ViewMode.twoD →
        450 < closestAlt e ps) ∧
    (∀ (m : ViewMode) (trace : List (ℚ × List ℚ)),
        (∀ t ∈ trace, 300 < closestAlt t.1 t.2 ∧ closestAlt t.1 t.2 < 450) →
        runViewMode m trace = m) := by
  have hcomputed : ∀ (e : ℚ) (ps : List ℚ),
      (if e < 300 then e else ps.foldl min e) < 300 ↔ closestAlt e ps < 300 := by
    intro e ps
    by_cases he : e < 300
    · rw [if_pos he]
      simp only [closestAlt, foldl_min_lt_iff]
      exact ⟨fun h => Or.inl h, fun _ => he⟩
    · rw [if_neg he]
      exact Iff.rfl
  refine ⟨?_, ?_, ?_⟩
  · intro m e ps h
    have hc : (if e < 300 then e else ps.foldl min e) < 300 :=
      (hcomputed e ps).mpr h
    cases m with
    | twoD => simp [updateViewMode, hc]
    | threeD =>
        have : ¬ (if e < 300 then e else ps.foldl min e) > 450 :=
          not_lt.mpr (le_of_lt (lt_trans hc (by norm_num)))
        simp [updateViewMode, this]
  · intro e ps h
    simp only [updateViewMode] at h
    rw [if_neg (by simp)] at h
    by_cases hc : (if e < 300 then e else ps.foldl min e) > 450
    · by_cases he : e < 300
      · rw [if_pos he] at hc
        exact absurd hc (by norm_num [not_lt]; linarith)
      · rw [if_neg he] at hc
        exact hc
    · rw [if_neg (by simp [hc])] at h
      exact absurd h (by simp)
  · have hstep : ∀ (m : ViewMode) (e : ℚ) (ps : List ℚ),
        300 < closestAlt e ps → closestAlt e ps < 450 →
        updateViewMode m e ps = m := by
      intro m e ps hlo hhi
      have he : ¬ e < 300 :=
        not_lt.mpr (le_of_lt (lt_of_lt_of_le hlo (foldl_min_le_seed ps e)))
      have hlt : ¬ (if e < 300 then e else ps.foldl min e) < 300 := by
        rw [if_neg he]
        exact not_lt.mpr (le_of_lt hlo)
      have hgt : ¬ (if e < 300 then e else ps.foldl min e) > 450 := by
        rw [if_neg he]
        exact not_lt.mpr (le_of_lt hhi)
      cases m with
      | twoD => simp [updateViewMode, hlt]
      | threeD => simp [updateViewMode, hlt, hgt]
    intro m trace
    induction trace generalizing m with
    | nil => intro _; rfl
    | cons t ts ih =>
        intro h
        have ht := h t (List.mem_cons_self t ts)
        simp only [runViewMode, List.foldl_cons]
        rw [hstep m t.1 t.2 ht.1 ht.2]
        exact ih m (fun u hu => h u (List.mem_cons_of_mem t hu))

lemma countEvents_nil : countEvents [] = 0 := rfl

lemma countEvents_cons (o : LandingOutcome) (l : List LandingOutcome) :
    countEvents (o :: l) =
      countEvents l + (if o = LandingOutcome.noEvent then 0 else 1) := by
  simp only [countEvents, List.countP_cons]
  by_cases h : o = LandingOutcome.noEvent <;> simp [h]

lemma runCheckLanding_resolved_quiet (contact safeSpeed : ℚ) :
    ∀ (ticks : List (ℚ × ℚ)), (∀ t ∈ ticks, t.1 < contact) →
    countEvents (runCheckLanding contact safeSpeed true ticks) = 0 := by
  intro ticks
  induction ticks with
  | nil => intro _; rfl
  | cons t ts ih =>
      intro h
      have ht : t.1 < contact := h t (List.mem_cons_self t ts)
      have hrest := ih (fun u hu => h u (List.mem_cons_of_mem t hu))
      have hstep : checkLanding contact safeSpeed true t.1 t.2 =
          (true, LandingOutcome.noEvent) := by
        simp [checkLanding, ht]
      simp [runCheckLanding, hstep, countEvents_cons, hrest]

/-- Claim C4: landing classification fires at most once per contact
episode.  While the altitude stays below the contact threshold, repeated
evaluation of `checkLanding` yields `success`/`crash` at most once (for
any starting value of the resolved flag); and any single evaluation with
altitude at or above the threshold clears the flag and fires nothing, so
the outcome can only re-trigger after the altitude rises above the
threshold again. -/
theorem checkLanding_once_per_episode :
    (∀ (contact safeSpeed : ℚ) (resolved : Bool) (ticks : List (ℚ × ℚ)),
        (∀ t ∈ ticks, t.1 < contact) →
        countEvents (runCheckLanding contact safeSpeed resolved ticks) ≤ 1) ∧
    (∀ (contact safeSpeed : ℚ) (resolved : Bool) (altitude speed : ℚ),
        contact ≤ altitude →
        checkLanding contact safeSpeed resolved altitude speed =
          (false, LandingOutcome.noEvent)) := by
  constructor
  · intro contact safeSpeed resolved ticks h
    cases ticks with
    | nil => simp [runCheckLanding, countEvents_nil]
    | cons t ts =>
        have ht : t.1 < contact := h t (List.mem_cons_self t ts)
        have hts : ∀ u ∈ ts, u.1 < contact :=
          fun u hu => h u (List.mem_cons_of_mem t hu)
        have hquiet := runCheckLanding_resolved_quiet contact safeSpeed ts hts
        cases resolved with
        | true =>
            have hstep : checkLanding contact safeSpeed true t.1 t.2 =
                (true, LandingOutcome.noEvent) := by
              simp [checkLanding, ht]
            simp [runCheckLanding, hstep, countEvents_cons, hquiet]
        | false =>
            by_cases hs : t.2 ≤ safeSpeed
            · have hstep : checkLanding contact safeSpeed false t.1 t.2 =
                  (true, LandingOutcome.success) := by
                simp [checkLanding, ht, hs]
              simp [runCheckLanding, hstep, countEvents_cons, hquiet]
            · have hstep : checkLanding contact safeSpeed false t.1 t.2 =
                  (true, LandingOutcome.crash) := by
                simp [checkLanding, ht, hs]
              simp [runCheckLanding, hstep, countEvents_cons, hquiet]
  · intro contact safeSpeed resolved altitude speed h
    simp [checkLanding, not_lt.mpr h]

/-- Claim C5: `updateGameState` is exactly the cyclic guarded machine —
it agrees everywhere with `specSubSceneStep` (the transition function
written from the claim's words: the four guarded transitions, identity
otherwise), and its result is always the current state or its cyclic
successor, so no other transition between the four states is ever taken. -/
theorem updateGameState_exactly_cyclic :
    (∀ (s : SubState) (altitude speed : ℚ),
        updateGameState s altitude speed = specSubSceneStep s altitude speed) ∧
    (∀ (s : SubState) (altitude speed : ℚ),
        updateGameState s altitude speed = s ∨
        updateGameState s altitude speed = cyclicNext s) := by
  constructor
  · intro s altitude speed
    cases s <;>
      simp only [updateGameState, specSubSceneStep] <;>
      split_ifs <;> simp_all
  · intro s altitude speed
    cases s <;>
      simp only [updateGameState, cyclicNext] <;>
      split_ifs <;> simp_all

/-- Claim C6: in the system-wide scene, any tick where the craft has
`fuel ≤ 0`, `speed < 0.1` and Earth altitude `> 10` resolves to the
out-of-fuel failure — `checkGameState` ends with phase `gameOver` and the
out-of-fuel reason, whatever the other inputs (phases, altitudes, landing
results) are. -/
theorem checkGameState_out_of_fuel (phase : Phase) (mode : ViewMode)
    (earthAlt : ℚ) (planetAlts : List ℚ)
    (earthLanding : LandingOutcome) (planetLandings : List LandingOutcome)
    (fuel speed : ℚ)
    (hf : fuel ≤ 0) (hs : speed < 1 / 10) (ha : earthAlt > 10) :
    (checkGameState phase mode earthAlt planetAlts earthLanding
        planetLandings fuel speed).1 = Phase.gameOver ∧
    (checkGameState phase mode earthAlt planetAlts earthLanding
        planetLandings fuel speed).2.2 = some GOMsg.outOfFuel := by
  simp only [checkGameState]
  rw [if_pos ⟨hf, hs, ha⟩]
  exact ⟨rfl, rfl⟩

/-- Claim C2 (code bug): the claim expects a game-over occurring before
the deferred respawn timer fires to neutralise the respawn (phase stays
`gameOver`, no reset).  The source's `setTimeout` callback in
`Game.onLandingSuccess` checks nothing before acting, so on the trace
"landing success on an unvisited planet, then game-over, then the timer
fires" the stale callback still resets/repositions the rocket and forces
the phase back to `launch`. -/
theorem respawn_callback_overrides_gameOver :
    runRespawn ⟨Phase.space, false, 0⟩
      [RespawnEv.landingSuccess false, RespawnEv.gameOverEv,
        RespawnEv.timerFire] =
      ⟨Phase.launch, false, 1⟩ ∧
    Phase.launch ≠ Phase.gameOver := by
  exact ⟨rfl, by decide⟩

/-- Claim C9: after `transferRocketFromSolarSystem`, the destination
rocket keeps the source fuel and has zero velocity; for the home body the
pose is a surface landing pose (center distance `radius + 2`, i.e.
altitude 2, upright orientation, gear deployed, state `landed`), otherwise
an approach pose at center-distance² `(radius + 800)² + 200²` — strictly
above the surface — looking at the planet, state `approaching`.  `(c, s)`
is the cosine/sine pair of the fixed placement angle. -/
theorem transferRocket_pose (radius c s srcFuel : ℚ) (srcVel : Vec3)
    (gear0 : Bool) (hcs : c * c + s * s = 1) (hr : 0 < radius) :
    ((transferRocketFromSolarSystem PlanetId.earth radius c s srcFuel srcVel
        gear0).1.fuel = srcFuel ∧
     (transferRocketFromSolarSystem PlanetId.earth radius c s srcFuel srcVel
        gear0).1.vel = vzero ∧
     (transferRocketFromSolarSystem PlanetId.earth radius c s srcFuel srcVel
        gear0).2 = SubState.landed ∧
     (transferRocketFromSolarSystem PlanetId.earth radius c s srcFuel srcVel
        gear0).1.gearDeployed = true ∧
     (transferRocketFromSolarSystem PlanetId.earth radius c s srcFuel srcVel
        gear0).1.orient = Orient.surfaceUp ∧
     normSq (transferRocketFromSolarSystem PlanetId.earth radius c s srcFuel
        srcVel gear0).1.pos = (radius + 2) * (radius + 2) ∧
     (∀ sq : ℚ → ℚ, sq ((radius + 2) * (radius + 2)) = radius + 2 →
        getAltitude sq vzero radius
          (transferRocketFromSolarSystem PlanetId.earth radius c s srcFuel
            srcVel gear0).1.pos = 2)) ∧
    ((transferRocketFromSolarSystem PlanetId.other radius c s srcFuel srcVel
        gear0).1.fuel = srcFuel ∧
     (transferRocketFromSolarSystem PlanetId.other radius c s srcFuel srcVel
        gear0).1.vel = vzero ∧
     (transferRocketFromSolarSystem PlanetId.other radius c s srcFuel srcVel
        gear0).2 = SubState.approaching ∧
     (transferRocketFromSolarSystem PlanetId.other radius c s srcFuel srcVel
        gear0).1.orient = Orient.towardPlanet ∧
     normSq (transferRocketFromSolarSystem PlanetId.other radius c s srcFuel
        srcVel gear0).1.pos = (radius + 800) * (radius + 800) + 200 * 200 ∧
     radius * radius < normSq (transferRocketFromSolarSystem PlanetId.other
        radius c s srcFuel srcVel gear0).1.pos) := by
  have hearth : normSq (Vec3.mk (c * (radius + 2)) 0 (s * (radius + 2))) =
      (radius + 2) * (radius + 2) := by
    have : c * (radius + 2) * (c * (radius + 2)) + 0 * 0 +
        s * (radius + 2) * (s * (radius + 2)) =
        (c * c + s * s) * ((radius + 2) * (radius + 2)) := by ring
    simp only [normSq, this, hcs, one_mul]
  have hother : normSq (Vec3.mk (c * (radius + 800)) 200 (s * (radius + 800))) =
      (radius + 800) * (radius + 800) + 200 * 200 := by
    have : c * (radius + 800) * (c * (radius + 800)) + 200 * 200 +
        s * (radius + 800) * (s * (radius + 800)) =
        (c * c + s * s) * ((radius + 800) * (radius + 800)) + 200 * 200 := by
      ring
    simp only [normSq, this, hcs, one_mul]
  constructor
  · refine ⟨rfl, rfl, rfl, rfl, rfl, ?_, ?_⟩
    · simpa [transferRocketFromSolarSystem] using hearth
    · intro sq hsq
      have hp : vsub (Vec3.mk (c * (radius + 2)) 0 (s * (radius + 2))) vzero =
          Vec3.mk (c * (radius + 2)) 0 (s * (radius + 2)) := by
        simp [vsub, vzero]
      simp only [transferRocketFromSolarSystem, getAltitude, hp, hearth, hsq]
      ring
  · refine ⟨rfl, rfl, rfl, rfl, ?_, ?_⟩
    · simpa [transferRocketFromSolarSystem] using hother
    · have h1 : radius * radius < (radius + 800) * (radius + 800) + 200 * 200 := by
        nlinarith
      simpa [transferRocketFromSolarSystem, hother] using h1

/-- Claim C10: enhanced single-planet gravity.  (a) Hard cutoff: whenever
the center distance exceeds `6 × radius`, `applyEnhancedGravity` returns
the zero vector — no gravitational acceleration at all that tick.
(b) Within `2 × radius` the (drag-adjusted) base gravity is scaled by
`enhancedGravityMultiplier`, which is strictly above 1 and at most
`3.5`. -/
theorem applyEnhancedGravity_cutoff_and_boost (sq : ℚ → ℚ)
    (rocketPos : Vec3) (rocketMass : ℚ) (rocketVel : Vec3)
    (planetPos : Vec3) (planetMass radius : ℚ) :
    (sq (normSq (vsub rocketPos planetPos)) > 6 * radius →
      applyEnhancedGravity sq rocketPos rocketMass rocketVel planetPos
        planetMass radius = toJ vzero) ∧
    (0 ≤ sq (normSq (vsub rocketPos planetPos)) →
      sq (normSq (vsub rocketPos planetPos)) < 2 * radius →
      0 < radius →
      1 < enhancedGravityMultiplier radius
            (sq (normSq (vsub rocketPos planetPos))) ∧
      enhancedGravityMultiplier radius
            (sq (normSq (vsub rocketPos planetPos))) ≤ 7 / 2 ∧
      applyEnhancedGravity sq rocketPos rocketMass rocketVel planetPos
          planetMass radius =
        jvScale (enhancedGravityMultiplier radius
            (sq (normSq (vsub rocketPos planetPos))))
          (if getAltitude sq planetPos radius rocketPos < 2400 then
            jvAdd (applyGravity sq rocketPos rocketMass planetPos planetMass)
              (toJ (vscale
                (-(calculateAtmosphericDrag sq
                    (getAltitude sq planetPos radius rocketPos))) rocketVel))
          else applyGravity sq rocketPos rocketMass planetPos planetMass)) := by
  constructor
  · intro h
    simp only [applyEnhancedGravity, if_pos h]
  · intro h0 h2 hr
    set d := sq (normSq (vsub rocketPos planetPos)) with hd
    have h6 : ¬ d > 6 * radius := by
      push_neg
      linarith
    have hq0 : 0 < (2 * radius - d) / (2 * radius) :=
      div_pos (by linarith) (by linarith)
    have hq1 : (2 * radius - d) / (2 * radius) ≤ 1 :=
      (div_le_one (by linarith)).mpr (by linarith)
    have hmult : enhancedGravityMultiplier radius d =
        1 + (2 * radius - d) / (2 * radius) * (5 / 2) := by
      simp only [enhancedGravityMultiplier, if_pos h2]
    refine ⟨?_, ?_, ?_⟩
    · rw [hmult]; nlinarith
    · rw [hmult]; nlinarith
    · simp only [applyEnhancedGravity, if_neg h6]

/-! Witnesses: each theorem with hypotheses applied at a concrete input. -/

/-- Witness for claim C7 at craft `(0,0,0)` mass 2, body `(3,4,0)` mass 10,
distance 5 (`sqrt 25 = 5`). -/
theorem applyGravity_matches_spec_witness :
    calculateGravityForce 2 10 5 = GravResult.scalar (specForce 2 10 5) ∧
    applyGravity (fun q => if q = 25 then 5 else 0) ⟨0, 0, 0⟩ 2 ⟨3, 4, 0⟩ 10 =
      toJ (specAcceleration ⟨0, 0, 0⟩ 2 ⟨3, 4, 0⟩ 10 5) :=
  applyGravity_matches_spec (fun q => if q = 25 then 5 else 0)
    ⟨0, 0, 0⟩ 2 ⟨3, 4, 0⟩ 10 5 (by norm_num [normSq, vsub]) (by norm_num)
    (by norm_num [normSq, vsub]) (by norm_num)

/-- Witness for claim C3: a switch-in below 300, a switch-out above 450,
and a two-tick band trace that never toggles. -/
theorem updateViewMode_hysteresis_witness :
    updateViewMode ViewMode.twoD 500 [250] = ViewMode.threeD ∧
    450 < closestAlt 500 [460] ∧
    runViewMode ViewMode.threeD [(400, [350]), (440, [320])] =
      ViewMode.threeD :=
  ⟨updateViewMode_hysteresis.1 ViewMode.twoD 500 [250] (by decide),
   updateViewMode_hysteresis.2.1 500 [460] (by decide),
   updateViewMode_hysteresis.2.2 ViewMode.threeD
     [(400, [350]), (440, [320])] (by decide)⟩

/-- Witness for claim C4: a three-tick below-threshold episode fires at
most once, and an above-threshold evaluation clears the flag. -/
theorem checkLanding_once_per_episode_witness :
    countEvents (runCheckLanding 10 2 false [(5, 1), (4, 5), (3, 0)]) ≤ 1 ∧
    checkLanding 10 2 true 12 0 = (false, LandingOutcome.noEvent) :=
  ⟨checkLanding_once_per_episode.1 10 2 false [(5, 1), (4, 5), (3, 0)]
     (by decide),
   checkLanding_once_per_episode.2 10 2 true 12 0 (by decide)⟩

/-- Witness for claim C6: a stranded craft (no fuel, speed 0, Earth
altitude 500) resolves to the out-of-fuel game over. -/
theorem checkGameState_out_of_fuel_witness :
    (0 : ℚ) ≤ 0 ∧ (0 : ℚ) < 1 / 10 ∧ (500 : ℚ) > 10 ∧
    ((checkGameState Phase.space ViewMode.twoD 500 [600]
        LandingOutcome.noEvent [LandingOutcome.noEvent] 0 0).1 =
      Phase.gameOver ∧
     (checkGameState Phase.space ViewMode.twoD 500 [600]
        LandingOutcome.noEvent [LandingOutcome.noEvent] 0 0).2.2 =
      some GOMsg.outOfFuel) :=
  ⟨le_refl 0, by norm_num, by norm_num,
   checkGameState_out_of_fuel Phase.space ViewMode.twoD 500 [600]
     LandingOutcome.noEvent [LandingOutcome.noEvent] 0 0
     (le_refl 0) (by norm_num) (by norm_num)⟩

/-- Witness for claim C9 at radius 1 with the rational unit-circle point
`(3/5, 4/5)`, fuel 7, incoming velocity `(1,2,3)`. -/
theorem transferRocket_pose_witness :
    (3 / 5 : ℚ) * (3 / 5) + 4 / 5 * (4 / 5) = 1 ∧ (0 : ℚ) < 1 ∧
    (transferRocketFromSolarSystem PlanetId.earth 1 (3 / 5) (4 / 5) 7
        ⟨1, 2, 3⟩ false).2 = SubState.landed ∧
    normSq (transferRocketFromSolarSystem PlanetId.other 1 (3 / 5) (4 / 5) 7
        ⟨1, 2, 3⟩ false).1.pos = (1 + 800) * (1 + 800) + 200 * 200 :=
  ⟨by norm_num, by norm_num,
   (transferRocket_pose 1 (3 / 5) (4 / 5) 7 ⟨1, 2, 3⟩ false
      (by norm_num) (by norm_num)).1.2.2.1,
   (transferRocket_pose 1 (3 / 5) (4 / 5) 7 ⟨1, 2, 3⟩ false
      (by norm_num) (by norm_num)).2.2.2.2.2.1⟩

/-- Witness for claim C10: the cutoff at center distance 100 over radius 1
and the boost bounds at center distance 1. -/
theorem applyEnhancedGravity_cutoff_and_boost_witness :
    applyEnhancedGravity (fun _ => 100) vzero 1 vzero ⟨9, 0, 0⟩ 1 1 =
      toJ vzero ∧
    1 < enhancedGravityMultiplier 1 1 ∧
    enhancedGravityMultiplier 1 1 ≤ 7 / 2 :=
  ⟨(applyEnhancedGravity_cutoff_and_boost (fun _ => 100) vzero 1 vzero
      ⟨9, 0, 0⟩ 1 1).1 (by norm_num),
   ((applyEnhancedGravity_cutoff_and_boost (fun _ => 1) vzero 1 vzero
      ⟨9, 0, 0⟩ 1 1).2 (by norm_num) (by norm_num) (by norm_num)).1,
   ((applyEnhancedGravity_cutoff_and_boost (fun _ => 1) vzero 1 vzero
      ⟨9, 0, 0⟩ 1 1).2 (by norm_num) (by norm_num) (by norm_num)).2.1⟩
